import Mathlib

/-!
Shallow embedding of the sandbox execution core of the SQL learning platform:
the query validator (`backend/sandbox/query_validator.py`), the executor
result shaping (`backend/sandbox/executors/*.py`), the Redis key-prefix
isolation (`backend/sandbox/executors/redis_executor.py`), the grading engine
(`backend/grading/models.py`), the session manager
(`backend/sandbox/session_manager.py`) and the pool facade
(`backend/sandbox/pool.py`).  Machine floats of the Python code are modelled
as exact rationals; all concrete values the theorems touch are exactly
representable.  Heavy I/O (connections, real backends) is abstracted into
explicit environments: an executor is modelled by its observable behaviour,
a function from query text to a result.
-/

/-! ### Exact rationals with kernel-reducing arithmetic

Python float arithmetic on grading scores is modelled exactly; all concrete
score values the theorems touch are small exact fractions.  Mathlib's `Rat`
normalisation is not kernel-reducible, so we carry our own normalised
fraction type with a fuel-driven (structurally recursive) gcd. -/

/-- Euclid's algorithm with explicit fuel (the first argument strictly
decreases each step, so `a + 1` fuel always suffices). -/
def gcdF : Nat → Nat → Nat → Nat
  | 0, a, b => a + b
  | _ + 1, 0, b => b
  | f + 1, a + 1, b => gcdF f (b % (a + 1)) (a + 1)

/-- Greatest common divisor via `gcdF`. -/
def natGcd (a b : Nat) : Nat := gcdF (a + b + 1) a b

/-- A rational number kept in lowest terms with a positive denominator
(denominator `0` is the unused error value). -/
structure Q where
  num : Int
  den : Nat
deriving DecidableEq

/-- Build a normalised rational from a numerator and positive denominator. -/
def Q.norm (n : Int) (d : Nat) : Q :=
  if d = 0 then ⟨0, 0⟩
  else
    let g := natGcd n.natAbs d
    ⟨n / (g : Int), d / g⟩

instance : OfNat Q n := ⟨⟨Int.ofNat n, 1⟩⟩

instance : Zero Q := ⟨⟨0, 1⟩⟩

instance : NatCast Q := ⟨fun n => ⟨Int.ofNat n, 1⟩⟩

instance : IntCast Q := ⟨fun n => ⟨n, 1⟩⟩

instance : Neg Q := ⟨fun x => ⟨-x.num, x.den⟩⟩

instance : Add Q := ⟨fun x y => Q.norm (x.num * y.den + y.num * x.den) (x.den * y.den)⟩

instance : Sub Q := ⟨fun x y => Q.norm (x.num * y.den - y.num * x.den) (x.den * y.den)⟩

instance : Mul Q := ⟨fun x y => Q.norm (x.num * y.num) (x.den * y.den)⟩

instance : Div Q :=
  ⟨fun x y =>
    if y.num = 0 then ⟨0, 0⟩
    else
      Q.norm (if y.num < 0 then -(x.num * y.den) else x.num * y.den)
        (x.den * y.num.natAbs)⟩

instance : LT Q := ⟨fun x y => x.num * y.den < y.num * x.den⟩

instance : LE Q := ⟨fun x y => x.num * y.den ≤ y.num * x.den⟩

instance : DecidableRel (α := Q) (· < ·) := fun _ _ => Int.decLt _ _

instance : DecidableRel (α := Q) (· ≤ ·) := fun _ _ => Int.decLe _ _

/-- Floor of a rational (denominator is positive on every reachable value). -/
def Q.floorI (x : Q) : Int := x.num.fdiv x.den

/-! ### ASCII string helpers that reduce in the kernel -/

/-- Python `str.upper()` on ASCII text. -/
def strUpper (s : String) : String := ⟨s.data.map Char.toUpper⟩

/-- Does the second list start with the first? -/
def listStarts : List Char → List Char → Bool
  | [], _ => true
  | _ :: _, [] => false
  | a :: as, b :: bs => a = b && listStarts as bs

/-- A Python scalar value as it appears in result rows and user ids.
Python equality across constructors is always false (e.g. `'7' != 7`). -/
inductive PyVal where
  | pnone
  | pbool (b : Bool)
  | pint (n : Int)
  | pfloat (q : Q)
  | pstr (s : String)
deriving DecidableEq

/-- Python `str(v)` for the values we model (only used on user ids). -/
def pyStr : PyVal → String
  | .pnone => "None"
  | .pbool b => if b then "True" else "False"
  | .pint n => toString n
  | .pfloat q => toString q.num ++ "/" ++ toString q.den
  | .pstr s => s

/-- Python truthiness for the values we model. -/
def pyTruthy : PyVal → Bool
  | .pnone => false
  | .pbool b => b
  | .pint n => n != 0
  | .pfloat q => q != 0
  | .pstr s => s != ""

/-- `QueryResult` from `backend/sandbox/executors/base.py`. -/
structure QueryResult where
  success : Bool
  columns : List String := []
  rows : List (List PyVal) := []
  row_count : Nat := 0
  affected_rows : Int := 0
  execution_time_ms : Nat := 0
  error_message : String := ""
  truncated : Bool := false
deriving DecidableEq

/-- `MAX_RESULT_ROWS` from `backend/sandbox/executors/base.py`. -/
def MAX_RESULT_ROWS : Nat := 1000

/-! ### A small regex engine

The validator and the grading keyword checks use Python `re` patterns built
from a small set of constructs: case-insensitive literals, `\b`, `\w`,
`\s+`, `\s*`, `.*`, alternation and an optional group.  We embed exactly
those constructs and a backtracking matcher. -/

/-- Python regex `\w` (ASCII inputs): letters, digits, underscore. -/
def isWordChar (c : Char) : Bool := c.isAlphanum || c = '_'

/-- Python regex `\s` (ASCII inputs). -/
def isSpaceChar (c : Char) : Bool :=
  c = ' ' || c = '\t' || c = '\n' || c = '\r' || c = '\x0b' || c = '\x0c'

/-- Case-insensitive character comparison (re.IGNORECASE). -/
def lowerEq (a b : Char) : Bool := a.toLower = b.toLower

/-- The regex constructs used by the validator and keyword patterns. -/
inductive Rx where
  | eps
  | lit (c : Char)
  | wchar
  | wb
  | wsPlus
  | wsStar
  | dotStar
  | seq (a b : Rx)
  | alt (a b : Rx)
  | opt (a : Rx)

/-- Literal string pattern (each char matched case-insensitively). -/
def Rx.lits (s : String) : Rx := s.data.foldr (fun c r => .seq (.lit c) r) .eps

/-- All ways to consume a nonempty run of leading whitespace:
(last consumed char, remaining input). -/
def wsTails : Option Char → List Char → List (Option Char × List Char)
  | _, [] => []
  | _, c :: rest =>
    if isSpaceChar c then (some c, rest) :: wsTails (some c) rest else []

/-- All ways to consume leading non-newline characters (for `.*`). -/
def dotTails : Option Char → List Char → List (Option Char × List Char)
  | _, [] => []
  | _, c :: rest =>
    if c = '\n' then [] else (some c, rest) :: dotTails (some c) rest

/-- Word boundary test between the previous char and the next char. -/
def atBoundary (prev next : Option Char) : Bool :=
  (match prev with | some c => isWordChar c | none => false)
    != (match next with | some c => isWordChar c | none => false)

/-- Backtracking matcher: all (previous char, remaining input) states after
matching the pattern at the start of `s`, given the char before `s`. -/
def Rx.run : Rx → Option Char → List Char → List (Option Char × List Char)
  | .eps, p, s => [(p, s)]
  | .lit _, _, [] => []
  | .lit c, _, a :: rest => if lowerEq a c then [(some a, rest)] else []
  | .wchar, _, [] => []
  | .wchar, _, a :: rest => if isWordChar a then [(some a, rest)] else []
  | .wb, p, s => if atBoundary p s.head? then [(p, s)] else []
  | .wsPlus, p, s => wsTails p s
  | .wsStar, p, s => (p, s) :: wsTails p s
  | .dotStar, p, s => (p, s) :: dotTails p s
  | .seq a b, p, s => (Rx.run a p s).flatMap (fun st => Rx.run b st.1 st.2)
  | .alt a b, p, s => Rx.run a p s ++ Rx.run b p s
  | .opt a, p, s => (p, s) :: Rx.run a p s

/-- Does the pattern match starting at some position of the input
(`re.search` as a boolean)? -/
def Rx.searchAux (r : Rx) : Option Char → List Char → Bool
  | p, s =>
    !(Rx.run r p s).isEmpty ||
      (match s with
        | [] => false
        | c :: rest => Rx.searchAux r (some c) rest)

/-- `re.search(pattern, s) is not None`. -/
def Rx.search (r : Rx) (s : String) : Bool := Rx.searchAux r none s.data

/-! ### SQL comment stripping (`_strip_sql_comments`) -/

/-- Find the input suffix right after the first `*/`, if any. -/
def findCloseBC : List Char → Option (List Char)
  | '*' :: '/' :: rest => some rest
  | _ :: rest => findCloseBC rest
  | [] => none

/-- Replace each `/* ... */` block comment (non-greedy, multi-line) by a
single space; an unclosed `/*` is left alone, as in `re.sub`. -/
def rmBlockF : Nat → List Char → List Char
  | 0, s => s
  | fuel + 1, s =>
    match s with
    | '/' :: '*' :: rest =>
      (match findCloseBC rest with
        | some after => ' ' :: rmBlockF fuel after
        | none => '/' :: rmBlockF fuel ('*' :: rest))
    | c :: rest => c :: rmBlockF fuel rest
    | [] => []

/-- Replace each `--` line comment (up to the newline) by a single space. -/
def rmLineF : Nat → List Char → List Char
  | 0, s => s
  | fuel + 1, s =>
    match s with
    | '-' :: '-' :: rest => ' ' :: rmLineF fuel (rest.dropWhile (fun c => c ≠ '\n'))
    | c :: rest => c :: rmLineF fuel rest
    | [] => []

/-- Collapse every whitespace run to a single space. -/
def collapseF : Nat → List Char → List Char
  | 0, s => s
  | fuel + 1, s =>
    match s with
    | c :: rest =>
      if isSpaceChar c then ' ' :: collapseF fuel (rest.dropWhile isSpaceChar)
      else c :: collapseF fuel rest
    | [] => []

/-- Python `str.strip()` on whitespace. -/
def pyStripWs (s : List Char) : List Char :=
  ((s.dropWhile isSpaceChar).reverse.dropWhile isSpaceChar).reverse

/-- `_strip_sql_comments` from `backend/sandbox/query_validator.py`. -/
def stripSqlComments (q : String) : String :=
  let a := rmBlockF (q.data.length + 1) q.data
  let b := rmLineF (a.length + 1) a
  let c := collapseF (b.length + 1) b
  ⟨pyStripWs c⟩

/-! ### Query validator (`backend/sandbox/query_validator.py`) -/

def msgFileRead : String := "Nice try! Reading server files is not allowed in the sandbox."
def msgFileWrite : String := "Nope! Writing files to the server is off limits here."
def msgSystemCmd : String := "Good attempt, but executing system commands is blocked."
def msgPrivilege : String := "Access denied! You can only work with your sandbox data."
def msgServerConfig : String := "Sorry, server configuration changes are not permitted."
def msgDestructive : String := "Whoa there! Destructive server operations are blocked."
def msgInfoLeak : String := "Sneaky! But accessing server internals is not allowed."
def msgExtension : String := "Extensions and plugins are disabled in the sandbox."
def msgNetwork : String := "Network operations from the sandbox? Not today!"
def msgAuth : String := "Authentication and user management is off limits."
def msgReplication : String := "Replication commands are not available in the sandbox."
def msgAdmin : String := "Admin commands are blocked. This is a learning sandbox!"

/-- Pattern `\bword\b`. -/
def rxWord (s : String) : Rx := .seq .wb (.seq (Rx.lits s) .wb)

/-- Pattern `\ba\s+b\b`. -/
def rxW2 (a b : String) : Rx :=
  .seq .wb (.seq (Rx.lits a) (.seq .wsPlus (.seq (Rx.lits b) .wb)))

/-- Pattern `\bcopy\b.*\bto\s+program\b` (and the `from` variant). -/
def rxCopyProg (kw : String) : Rx := .seq (rxWord "copy") (.seq .dotStar (rxW2 kw "program"))

/-- Pattern `\bcreate\s+(?:or\s+replace\s+)?kw\b`. -/
def rxCreateOrReplace (kw : String) : Rx :=
  .seq .wb (.seq (Rx.lits "create") (.seq .wsPlus
    (.seq (.opt (.seq (Rx.lits "or") (.seq .wsPlus (.seq (Rx.lits "replace") .wsPlus))))
      (.seq (Rx.lits kw) .wb))))

/-- Pattern `\bdo\s*\$`. -/
def rxDoDollar : Rx := .seq .wb (.seq (Rx.lits "do") (.seq .wsStar (.lit '$')))

/-- Pattern `\buse\s+\w`. -/
def rxUseDb : Rx := .seq .wb (.seq (Rx.lits "use") (.seq .wsPlus .wchar))

/-- Pattern `\bshow\s+(?:master|slave|replica)\b`. -/
def rxShowRepl : Rx :=
  .seq .wb (.seq (Rx.lits "show") (.seq .wsPlus
    (.seq (.alt (Rx.lits "master") (.alt (Rx.lits "slave") (Rx.lits "replica"))) .wb)))

/-- `_SQL_RULES` from `backend/sandbox/query_validator.py`, in source order. -/
def sqlRules : List (Rx × String) := [
  (rxWord "pg_read_file", msgFileRead),
  (rxWord "pg_read_binary_file", msgFileRead),
  (rxWord "pg_stat_file", msgFileRead),
  (rxWord "lo_import", msgFileRead),
  (rxWord "lo_export", msgFileWrite),
  (rxWord "load_file", msgFileRead),
  (rxW2 "into" "outfile", msgFileWrite),
  (rxW2 "into" "dumpfile", msgFileWrite),
  (rxW2 "attach" "database", msgFileRead),
  (rxCopyProg "to", msgSystemCmd),
  (rxCopyProg "from", msgSystemCmd),
  (rxWord "pg_execute_server_program", msgSystemCmd),
  (rxWord "pg_shadow", msgPrivilege),
  (rxWord "pg_authid", msgPrivilege),
  (rxWord "pg_auth_members", msgPrivilege),
  (rxWord "pg_roles", msgPrivilege),
  (rxWord "pg_user", msgPrivilege),
  (rxWord "information_schema.user_privileges", msgPrivilege),
  (rxWord "mysql.user", msgPrivilege),
  (rxWord "mysql.db", msgPrivilege),
  (rxWord "mysql.tables_priv", msgPrivilege),
  (rxWord "mysql.columns_priv", msgPrivilege),
  (rxWord "mysql.global_priv", msgPrivilege),
  (rxWord "performance_schema", msgPrivilege),
  (rxW2 "set" "global", msgServerConfig),
  (rxW2 "alter" "system", msgServerConfig),
  (rxWord "pg_reload_conf", msgServerConfig),
  (rxWord "pg_terminate_backend", msgServerConfig),
  (rxWord "pg_cancel_backend", msgServerConfig),
  (rxWord "pg_sleep", msgServerConfig),
  (rxW2 "create" "role", msgAuth),
  (rxW2 "create" "user", msgAuth),
  (rxW2 "alter" "role", msgAuth),
  (rxW2 "alter" "user", msgAuth),
  (rxW2 "drop" "role", msgAuth),
  (rxW2 "drop" "user", msgAuth),
  (rxWord "grant", msgAuth),
  (rxWord "revoke", msgAuth),
  (rxW2 "create" "extension", msgExtension),
  (rxCreateOrReplace "function", msgSystemCmd),
  (rxCreateOrReplace "procedure", msgSystemCmd),
  (rxW2 "create" "trigger", msgSystemCmd),
  (rxW2 "create" "event", msgSystemCmd),
  (rxDoDollar, msgSystemCmd),
  (rxW2 "create" "schema", msgDestructive),
  (rxW2 "drop" "schema", msgDestructive),
  (rxW2 "set" "search_path", msgServerConfig),
  (rxUseDb, msgServerConfig),
  (rxW2 "drop" "database", msgDestructive),
  (rxW2 "create" "database", msgDestructive),
  (rxW2 "drop" "tablespace", msgDestructive),
  (rxWord "dblink", msgNetwork),
  (rxWord "postgres_fdw", msgNetwork),
  (rxW2 "create" "server", msgNetwork),
  (rxW2 "create" "foreign", msgNetwork),
  (rxWord "pg_ls_dir", msgInfoLeak),
  (rxWord "pg_ls_logdir", msgInfoLeak),
  (rxWord "pg_ls_waldir", msgInfoLeak),
  (rxWord "current_setting", msgInfoLeak),
  (rxWord "pg_hba_file_rules", msgInfoLeak),
  (rxW2 "show" "variables", msgInfoLeak),
  (rxW2 "show" "grants", msgInfoLeak),
  (rxShowRepl, msgReplication)]

/-- First rule whose pattern matches wins (the loop raising on first match). -/
def firstRuleMatch : List (Rx × String) → String → Option String
  | [], _ => none
  | (r, m) :: rest, s => if Rx.search r s then some m else firstRuleMatch rest s

/-- `validate_sql`: `some message` when blocked, `none` when the query passes. -/
def validateSql (q : String) : Option String :=
  firstRuleMatch sqlRules (stripSqlComments q)

/-- Pattern `\b\$kw\b` (a literal dollar before a word). -/
def rxDollarWord (s : String) : Rx := .seq .wb (.seq (.lit '$') (.seq (Rx.lits s) .wb))

/-- Pattern `\bkw\s*c` for a trailing literal such as `(` or `.`. -/
def rxWordThen (s : String) (c : Char) : Rx :=
  .seq .wb (.seq (Rx.lits s) (.seq .wsStar (.lit c)))

/-- `_MONGO_BLOCKED_PATTERNS`, in source order. -/
def mongoRules : List (Rx × String) := [
  (rxWord "adminCommand", msgAdmin),
  (rxWord "runCommand", msgAdmin),
  (rxWord "getSiblingDB", msgAdmin),
  (rxWord "getMongo", msgAdmin),
  (rxWord "shutdownServer", msgDestructive),
  (rxWord "fsyncLock", msgDestructive),
  (rxWord "fsyncUnlock", msgDestructive),
  (rxDollarWord "where", msgSystemCmd),
  (rxWord "eval", msgSystemCmd),
  (rxWord "system", msgSystemCmd),
  (rxDollarWord "function", msgSystemCmd),
  (rxDollarWord "accumulator", msgSystemCmd),
  (rxWord "mapReduce", msgSystemCmd),
  (rxWord "createUser", msgAuth),
  (rxWord "dropUser", msgAuth),
  (rxWord "updateUser", msgAuth),
  (rxWord "grantRolesToUser", msgAuth),
  (rxWord "revokeRolesFromUser", msgAuth),
  (rxWord "createRole", msgAuth),
  (rxWord "dropDatabase", msgDestructive),
  (rxWord "serverStatus", msgInfoLeak),
  (rxWord "hostInfo", msgInfoLeak),
  (rxWord "listDatabases", msgInfoLeak),
  (rxWord "currentOp", msgInfoLeak),
  (rxWord "getCmdLineOpts", msgInfoLeak),
  (rxWord "getLog", msgInfoLeak),
  (rxWord "replSetGetStatus", msgReplication),
  (rxWord "replSetInitiate", msgReplication),
  (rxWord "isMaster", msgReplication),
  (rxWordThen "process" '.', msgSystemCmd),
  (rxWordThen "require" '(', msgSystemCmd),
  (rxWord "child_process", msgSystemCmd),
  (rxWordThen "spawn" '(', msgSystemCmd),
  (rxWordThen "exec" '(', msgSystemCmd)]

/-- `validate_mongodb`: matched against the raw query text. -/
def validateMongo (q : String) : Option String := firstRuleMatch mongoRules q

/-- `_REDIS_ALLOWED_COMMANDS`. -/
def redisAllowed : List String := [
  "SET", "GET", "MSET", "MGET", "APPEND", "STRLEN",
  "INCR", "INCRBY", "INCRBYFLOAT", "DECR", "DECRBY",
  "SETNX", "SETEX", "PSETEX", "GETSET", "GETRANGE", "SETRANGE",
  "GETDEL",
  "DEL", "EXISTS", "EXPIRE", "EXPIREAT", "TTL", "PTTL",
  "PERSIST", "TYPE", "RENAME", "RENAMENX", "RANDOMKEY",
  "SCAN", "OBJECT",
  "KEYS",
  "HSET", "HGET", "HMSET", "HMGET", "HGETALL", "HDEL",
  "HEXISTS", "HKEYS", "HVALS", "HLEN", "HINCRBY", "HINCRBYFLOAT",
  "HSETNX", "HSCAN",
  "LPUSH", "RPUSH", "LPOP", "RPOP", "LRANGE", "LLEN",
  "LINDEX", "LSET", "LINSERT", "LREM", "LTRIM",
  "RPOPLPUSH", "LMOVE", "LPOS",
  "SADD", "SREM", "SMEMBERS", "SISMEMBER", "SCARD",
  "SUNION", "SINTER", "SDIFF",
  "SUNIONSTORE", "SINTERSTORE", "SDIFFSTORE",
  "SRANDMEMBER", "SPOP", "SMOVE", "SSCAN",
  "ZADD", "ZREM", "ZSCORE", "ZRANK", "ZREVRANK",
  "ZRANGE", "ZREVRANGE", "ZRANGEBYSCORE", "ZREVRANGEBYSCORE",
  "ZCARD", "ZCOUNT", "ZINCRBY",
  "ZUNIONSTORE", "ZINTERSTORE",
  "ZRANGEBYLEX", "ZLEXCOUNT", "ZSCAN",
  "ZPOPMIN", "ZPOPMAX", "ZRANGESTORE", "ZMSCORE",
  "PFADD", "PFCOUNT", "PFMERGE",
  "XADD", "XLEN", "XRANGE", "XREVRANGE", "XREAD",
  "XINFO", "XTRIM",
  "PUBLISH", "SUBSCRIBE", "UNSUBSCRIBE",
  "GEOADD", "GEODIST", "GEOHASH", "GEOPOS",
  "GEORADIUS", "GEORADIUSBYMEMBER", "GEOSEARCH", "GEOSEARCHSTORE",
  "PING", "ECHO", "DBSIZE", "TIME",
  "MULTI", "EXEC", "DISCARD", "WATCH", "UNWATCH",
  "SORT",
  "INFO"]

/-- The specialised messages for commonly attempted dangerous commands. -/
def redisDangerMap : List (String × String) := [
  ("CONFIG", msgServerConfig),
  ("FLUSHALL", msgDestructive),
  ("FLUSHDB", msgDestructive),
  ("SHUTDOWN", msgDestructive),
  ("SLAVEOF", msgReplication),
  ("REPLICAOF", msgReplication),
  ("DEBUG", msgSystemCmd),
  ("MODULE", msgExtension),
  ("ACL", msgAuth),
  ("AUTH", msgAuth),
  ("BGSAVE", msgServerConfig),
  ("BGREWRITEAOF", msgServerConfig),
  ("SAVE", msgServerConfig),
  ("MIGRATE", msgNetwork),
  ("CLUSTER", msgServerConfig),
  ("CLIENT", msgInfoLeak),
  ("COMMAND", msgInfoLeak),
  ("LATENCY", msgInfoLeak),
  ("MEMORY", msgInfoLeak),
  ("SLOWLOG", msgInfoLeak),
  ("SWAPDB", msgDestructive),
  ("SELECT", msgServerConfig),
  ("MONITOR", msgInfoLeak),
  ("WAIT", msgServerConfig),
  ("RESTORE", msgServerConfig),
  ("DUMP", msgInfoLeak),
  ("SCRIPT", msgSystemCmd),
  ("EVAL", msgSystemCmd),
  ("EVALSHA", msgSystemCmd),
  ("FUNCTION", msgSystemCmd),
  ("FCALL", msgSystemCmd)]

/-- Python `str.split()` with no arguments: split on whitespace runs. -/
def splitWsF : Nat → List Char → List String
  | 0, _ => []
  | _ + 1, [] => []
  | fuel + 1, c :: rest =>
    if isSpaceChar c then splitWsF fuel rest
    else
      let tok := (c :: rest).takeWhile (fun a => ¬ isSpaceChar a)
      let rem := (c :: rest).dropWhile (fun a => ¬ isSpaceChar a)
      (⟨tok⟩ : String) :: splitWsF fuel rem

/-- `validate_redis`: whitelist check on the first token, uppercased. -/
def validateRedis (q : String) : Option String :=
  match splitWsF (q.data.length + 1) q.data with
  | [] => none
  | c0 :: _ =>
    let command := strUpper c0
    if redisAllowed.contains command then none
    else some ((redisDangerMap.lookup command).getD
      ("The command \x27" ++ command ++ "\x27 is not available in the sandbox. Stick to data commands like GET, SET, HSET, LPUSH, ZADD, etc."))

/-- The validation dispatch performed by the pool before any execution. -/
def validateFor (dbt q : String) : Option String :=
  if dbt = "sqlite" || dbt = "postgresql" || dbt = "mariadb" then validateSql q
  else if dbt = "mongodb" then validateMongo q
  else if dbt = "redis" then validateRedis q
  else none

/-! ### Executor result shaping (`executors/postgresql.py`, `executors/sqlite.py`)

The cursor outcome of a successful statement is abstracted as the optional
column description, the fetched rows and the DML row count. -/

/-- `PostgreSQLExecutor.execute_query`, success path: rows are capped at
`MAX_RESULT_ROWS` and `truncated` is set when the fetch exceeded the cap. -/
def pgExecuteQuery (desc : Option (List String)) (fetched : List (List PyVal))
    (rowcount : Int) (elapsed : Nat) : QueryResult :=
  match desc with
  | some cols =>
    let tr : Bool := decide (fetched.length > MAX_RESULT_ROWS)
    let rows := if tr then fetched.take MAX_RESULT_ROWS else fetched
    { success := true, columns := cols, rows := rows, row_count := rows.length,
      execution_time_ms := elapsed, truncated := tr }
  | none =>
    { success := true, affected_rows := if rowcount ≥ 0 then rowcount else 0,
      execution_time_ms := elapsed }

/-- `SQLiteExecutor.execute_query`, success path: all fetched rows are
returned and `truncated` keeps its default `false`. -/
def sqliteExecuteQuery (desc : Option (List String)) (fetched : List (List PyVal))
    (rowcount : Int) (elapsed : Nat) : QueryResult :=
  match desc with
  | some cols =>
    { success := true, columns := cols, rows := fetched, row_count := fetched.length,
      execution_time_ms := elapsed }
  | none =>
    { success := true, affected_rows := if rowcount ≥ 0 then rowcount else 0,
      execution_time_ms := elapsed }

/-! ### Redis key-prefix isolation (`executors/redis_executor.py`) -/

/-- `_NO_KEY_COMMANDS`. -/
def noKeyCmds : List String := [
  "PING", "ECHO", "INFO", "DBSIZE", "TIME", "CONFIG",
  "CLIENT", "COMMAND", "MULTI", "EXEC", "DISCARD",
  "SELECT", "QUIT", "AUTH", "RANDOMKEY", "WAIT",
  "FLUSHDB", "FLUSHALL"]

/-- `_ALL_KEYS_COMMANDS`. -/
def allKeysCmds : List String := [
  "DEL", "EXISTS", "UNLINK", "MGET", "PFCOUNT",
  "SDIFF", "SINTER", "SUNION", "WATCH"]

/-- `_KV_PAIR_COMMANDS`. -/
def kvPairCmds : List String := ["MSET", "MSETNX"]

/-- `_TWO_KEY_COMMANDS`. -/
def twoKeyCmds : List String := [
  "RENAME", "RENAMENX", "RPOPLPUSH", "LMOVE", "SMOVE",
  "SDIFFSTORE", "SINTERSTORE", "SUNIONSTORE"]

/-- `_prefix_key`: add the session key prefix when one is set. -/
def pfxKey (kp key : String) : String := if kp ≠ "" then kp ++ ":" ++ key else key

/-- The command-class dispatch of `_prefix_args`, on the uppercased command. -/
def pfxDispatch (kp cmd : String) (args : List String) : List String :=
  if noKeyCmds.contains cmd then args
  else if cmd = "KEYS" then
    match args with
    | a0 :: rest => (kp ++ ":" ++ a0) :: rest
    | [] => args
  else if allKeysCmds.contains cmd then args.map (pfxKey kp)
  else if kvPairCmds.contains cmd then
    args.mapIdx (fun i a => if i % 2 = 0 then pfxKey kp a else a)
  else if twoKeyCmds.contains cmd then
    match args with
    | a0 :: a1 :: rest => pfxKey kp a0 :: pfxKey kp a1 :: rest
    | [a0] => [pfxKey kp a0]
    | [] => []
  else
    match args with
    | a0 :: rest => pfxKey kp a0 :: rest
    | [] => []

/-- `_prefix_args`: rewrite key arguments according to the command class. -/
def pfxArgs (kp command : String) (args : List String) : List String :=
  if kp = "" ∨ args = [] then args
  else pfxDispatch kp (strUpper command) args

/-- `_strip_prefix_from_keys`: drop the prefix from returned key names. -/
def stripKeyList (kp : String) (keys : List String) : List String :=
  if kp = "" then keys
  else
    keys.map (fun k =>
      if listStarts (kp ++ ":").data k.data then (⟨k.data.drop (kp ++ ":").data.length⟩ : String) else k)

/-- A Redis reply, as far as the prefix logic observes it. -/
inductive RVal where
  | rstr (s : String)
  | rint (n : Int)
  | rlist (l : List String)
  | rnil
deriving DecidableEq

/-- `_execute_command`: prefix the key arguments, run the command on the
backend, and strip prefixes from a `KEYS` reply. -/
def execCommand (kp : String) (backend : String → List String → RVal)
    (command : String) (args : List String) : RVal :=
  let pa := pfxArgs kp command args
  let r := backend command pa
  if kp ≠ "" ∧ strUpper command = "KEYS" then
    match r with
    | .rlist l => .rlist (stripKeyList kp l)
    | other => other
  else r

/-! ### Grading engine (`backend/grading/models.py`) -/

/-- Python banker's rounding of a rational to an integer. -/
def roundHE (q : Q) : Int :=
  let f := q.floorI
  let r := q - (f : Q)
  if r < (1 : Q) / 2 then f
  else if (1 : Q) / 2 < r then f + 1
  else if f % 2 = 0 then f else f + 1

/-- Python `round(q, 2)`. -/
def round2 (q : Q) : Q := (roundHE (q * 100) : Q) / 100

/-- Python `round(q, 6)`. -/
def round6 (q : Q) : Q := (roundHE (q * 1000000) : Q) / 1000000

/-- `_normalize_value`: identity on null/bool/int, floats rounded to six
digits, everything else stringified and stripped. -/
def normVal : PyVal → PyVal
  | .pnone => .pnone
  | .pbool b => .pbool b
  | .pint n => .pint n
  | .pfloat q => .pfloat (round6 q)
  | .pstr s => .pstr (⟨pyStripWs s.data⟩ : String)

/-- The result dict handed to the grading service (`QueryResult.to_dict`). -/
structure ResTab where
  success : Bool := true
  columns : List String := []
  rows : List (List PyVal) := []
  error_message : String := ""
deriving DecidableEq

/-- Outcome record of one grading check. -/
structure CheckRes where
  passed : Bool
  score : Q
  found : List String := []
  missing : List String := []
  colMismatch : Bool := false
  rowCountMismatch : Bool := false
deriving DecidableEq

/-- The keyword matcher: `re.search(rf"\b{re.escape(kw.upper())}\b", query.upper())`. -/
def kwFound (query kw : String) : Bool := Rx.search (rxWord (strUpper kw)) (strUpper query)

/-- `_check_forbidden_keywords`. -/
def checkForbidden (query : String) (forb : List String) : CheckRes :=
  let found := forb.filter (kwFound query)
  { passed := found = [], score := if found = [] then 100 else 0, found := found }

/-- `_check_required_keywords`. -/
def checkRequired (query : String) (req : List String) : CheckRes :=
  let missing := req.filter (fun kw => ¬ kwFound query kw)
  if req = [] then { passed := true, score := 100 }
  else
    { passed := missing = [],
      score := (((req.length : Nat) : Q) - ((missing.length : Nat) : Q)) / ((req.length : Nat) : Q) * 100,
      missing := missing }

/-- Python set equality of two lists of strings. -/
def sameSet (a b : List String) : Bool :=
  a.all (fun x => b.contains x) && b.all (fun x => a.contains x)

/-- `len(set(a) & set(b))`: the number of distinct rows present in both. -/
def pySetInterCard (a b : List (List PyVal)) : Nat :=
  (a.eraseDups.filter (fun x => b.contains x)).length

/-- Matched-row count: by index when order matters, else the distinct-row
intersection cardinality (`len(set(student) & set(expected))`). -/
def rowMatches (orderMatters : Bool) (sN eN : List (List PyVal)) : Nat :=
  if orderMatters then (sN.zip eN).countP (fun p => p.1 == p.2)
  else pySetInterCard sN eN

/-- The column-reordering and value-normalisation pipeline applied to the
student rows before comparison. -/
def normStudentRows (student expected : ResTab) : List (List PyVal) :=
  let sCols := student.columns.map strUpper
  let eCols := expected.columns.map strUpper
  let sRows :=
    if sCols ≠ eCols then
      let mapping := eCols.map (fun c => sCols.indexOf c)
      student.rows.map (fun row => mapping.map (fun i => row.getD i PyVal.pnone))
    else student.rows
  sRows.map (fun r => r.map normVal)

/-- The normalised expected rows. -/
def normExpectedRows (expected : ResTab) : List (List PyVal) :=
  expected.rows.map (fun r => r.map normVal)

/-- `_check_result_match`. -/
def checkResultMatch (student expected : ResTab)
    (orderMatters pMatch : Bool) : CheckRes :=
  let sCols := student.columns.map strUpper
  let eCols := expected.columns.map strUpper
  if ¬ sameSet sCols eCols then
    { passed := false, score := 0, colMismatch := true }
  else
    let sN := normStudentRows student expected
    let eN := normExpectedRows expected
    if sN.length ≠ eN.length then
      if pMatch then
        let m := rowMatches orderMatters sN eN
        { passed := false, score := ((m : Nat) : Q) / ((max eN.length 1 : Nat) : Q) * 100,
          rowCountMismatch := true }
      else
        { passed := false, score := 0, rowCountMismatch := true }
    else
      let m := rowMatches orderMatters sN eN
      let total := if eN.length = 0 then 1 else eN.length
      { passed := m = total, score := ((m : Nat) : Q) / ((total : Nat) : Q) * 100 }

/-- The grading outcome (`GradingResult` plus the per-check passed flags of
the feedback). -/
structure GradeOut where
  score : Q
  max_score : Int
  is_correct : Bool
  checks : List (String × Bool)
  errorMsg : String := ""
deriving DecidableEq

/-- `GradingService.grade`. -/
def gradeSubmission (studentRes : ResTab) (expectedRes : Option ResTab)
    (reqKw forbKw : List String) (orderMatters pMatch : Bool)
    (maxScore : Int) (studentQuery : String) : GradeOut :=
  if ¬ studentRes.success then
    { score := (0 : Q), max_score := maxScore, is_correct := false,
      checks := [("Execution", false)], errorMsg := studentRes.error_message }
  else
    let p0 : List (Q × Q) := []
    let c0 : List (String × Bool) := []
    let pc1 :=
      if forbKw ≠ [] then
        let fc := checkForbidden studentQuery forbKw
        (p0 ++ [(fc.score, 20)], c0 ++ [("Forbidden keywords", fc.passed)])
      else (p0, c0)
    let pc2 :=
      if reqKw ≠ [] then
        let rc := checkRequired studentQuery reqKw
        (pc1.1 ++ [(rc.score, 20)], pc1.2 ++ [("Required keywords", rc.passed)])
      else pc1
    let pc3 :=
      match expectedRes with
      | some er =>
        let mc := checkResultMatch studentRes er orderMatters pMatch
        (pc2.1 ++ [(mc.score, 60)], pc2.2 ++ [("Result match", mc.passed)])
      | none => pc2
    let totalWeight : Q := (pc3.1.map Prod.snd).sum
    if totalWeight = 0 then
      { score := (maxScore : Q), max_score := maxScore, is_correct := true, checks := pc3.2 }
    else
      let weightedSum := (pc3.1.map (fun pr => pr.1 * pr.2)).sum
      { score := round2 (weightedSum / totalWeight * (maxScore : Q) / 100),
        max_score := maxScore,
        is_correct := pc3.2.all (fun c => c.2),
        checks := pc3.2 }

/-! ### Session manager (`backend/sandbox/session_manager.py`)

The claims settled against this embedding concern the sequential logic of
lookup, ownership, rebuild, expiry and the redis metadata record; the
manager's locks serialise exactly these critical sections, so each such
section is one step here.  Heavy I/O is abstracted: an executor is its
observable behaviour `exec : String → QueryResult`, and session creation is
assumed to succeed (creation failures are out of scope of the claims aimed
at this component).  The second component of `mgrExecute`'s result records
whether the session's executor was invoked. -/

/-- `SESSION_TTL` (seconds). -/
def SESSION_TTL : Int := 900

/-- `MAX_SESSIONS`. -/
def MAX_SESSIONS : Nat := 100

/-- `SandboxSession`: the live in-memory session record.  `connected` and
`reconnectOk` summarise the executor's connection state and the outcome a
reconnect attempt would have. -/
structure Session where
  session_id : String
  database_type : String
  schema_sql : String
  seed_sql : String
  exec : String → QueryResult
  created_at : Int
  last_used_at : Int
  isolation_id : Option String := none
  user_id : Option PyVal := none
  connected : Bool := true
  reconnectOk : Bool := true
  reconnectErr : String := ""

/-- The durable metadata record stored under `session:<id>`; note that
`_save_meta_to_redis` serialises the owner id as a string. -/
structure SessionMeta where
  session_id : String
  database_type : String
  schema_sql : String
  seed_sql : String
  isolation_id : String
  created_at : Int
  user_id : Option String
deriving DecidableEq

/-- The manager's state: the session table and the metadata store. -/
structure MgrState where
  sessions : List (String × Session)
  redisStore : List (String × SessionMeta)

/-- `self._sessions.get(session_id)`. -/
def lookupSession (st : MgrState) (sid : String) : Option Session :=
  st.sessions.lookup sid

/-- Write back an updated session under its id. -/
def updateSession (st : MgrState) (sid : String) (s : Session) : MgrState :=
  { st with sessions := st.sessions.map (fun p => if p.1 = sid then (sid, s) else p) }

/-- `self._sessions.pop(session_id, None)` (the state part). -/
def removeSession (st : MgrState) (sid : String) : MgrState :=
  { st with sessions := st.sessions.filter (fun p => p.1 ≠ sid) }

/-- Insert a fresh entry into the session table. -/
def insertSession (st : MgrState) (sid : String) (s : Session) : MgrState :=
  { st with sessions := st.sessions ++ [(sid, s)] }

/-- `redis.get` on the metadata store. -/
def redisGet (st : MgrState) (k : String) : Option SessionMeta :=
  st.redisStore.lookup k

/-- `redis.setex` on the metadata store (TTL bookkeeping not modelled). -/
def redisSet (st : MgrState) (k : String) (m : SessionMeta) : MgrState :=
  { st with redisStore := (st.redisStore.filter (fun p => p.1 ≠ k)) ++ [(k, m)] }

/-- `redis.delete` on the metadata store. -/
def redisDel (st : MgrState) (k : String) : MgrState :=
  { st with redisStore := st.redisStore.filter (fun p => p.1 ≠ k) }

/-- `_save_meta_to_redis`'s serialised record: the owner id is stringified
when truthy and stored as null otherwise. -/
def metaOf (s : Session) : SessionMeta :=
  { session_id := s.session_id, database_type := s.database_type,
    schema_sql := s.schema_sql, seed_sql := s.seed_sql,
    isolation_id := s.isolation_id.getD "", created_at := s.created_at,
    user_id :=
      match s.user_id with
      | some v => if pyTruthy v then some (pyStr v) else none
      | none => none }

/-- The abstracted backend environment for `_create_session`: the behaviour
of a freshly created executor given schema and seed text, and the fresh hex
suffix of the generated isolation id. -/
structure CreateEnv where
  mkExec : String → String → String → QueryResult
  freshHex : String

/-- `_create_session` (creation assumed to succeed; the executor's behaviour
is determined by the schema and seed that were applied to it). -/
def createSession (env : CreateEnv) (now : Int) (sid dbt schema seed : String) : Session :=
  { session_id := sid, database_type := dbt, schema_sql := schema,
    seed_sql := seed, exec := env.mkExec schema seed, created_at := now,
    last_used_at := now, isolation_id := some ("s_" ++ env.freshHex) }

/-- `_rebuild_from_redis`: recreate the session from the stored schema and
seed, then restore `user_id` from the metadata — as the json string. -/
def rebuildFromRedis (env : CreateEnv) (st : MgrState) (now : Int)
    (sid dbt : String) : Option Session :=
  match redisGet st ("session:" ++ sid) with
  | none => none
  | some meta =>
    if meta.database_type ≠ dbt then none
    else
      some { createSession env now sid meta.database_type meta.schema_sql
              meta.seed_sql with
             user_id := meta.user_id.map PyVal.pstr }

/-- The session-hijacking rejection message. -/
def notOwnerMsg : String := "Session belongs to another user."

/-- The session-cap rejection message. -/
def tooManyMsg : String :=
  "Too many active sessions (100). Please try again later."

/-- The tail of `get_or_create` once no live session was found: try the
redis rebuild, otherwise create a new session, stamp the caller as owner
and save the metadata record (only the new-session path saves metadata). -/
def gocRebuildOrCreate (env : CreateEnv) (st : MgrState) (now : Int)
    (sid dbt schema seed : String) (uid : Option PyVal) :
    Except String Session × MgrState :=
  match rebuildFromRedis env st now sid dbt with
  | some rb => (.ok rb, insertSession st sid rb)
  | none =>
    let ns := { createSession env now sid dbt schema seed with user_id := uid }
    let st1 := insertSession st sid ns
    (.ok ns, redisSet st1 ("session:" ++ sid) (metaOf ns))

/-- `SessionManager.get_or_create`.  A raised `DatabaseConnectionError`
becomes the `Except.error` carrying its message. -/
def getOrCreate (env : CreateEnv) (st : MgrState) (now : Int)
    (sid dbt schema seed : String) (uid : Option PyVal) :
    Except String Session × MgrState :=
  match lookupSession st sid with
  | some s =>
    if s.database_type = dbt then
      match s.user_id with
      | some owner =>
        (match uid with
          | none => (.error notOwnerMsg, st)
          | some u =>
            if owner ≠ u then (.error notOwnerMsg, st)
            else
              let s1 := { s with last_used_at := now }
              (.ok s1, updateSession st sid s1))
      | none =>
        let s1 := { s with last_used_at := now }
        (.ok s1, updateSession st sid s1)
    else
      let st1 := removeSession st sid
      if st1.sessions.length ≥ MAX_SESSIONS then (.error tooManyMsg, st1)
      else
        gocRebuildOrCreate env (redisDel st1 ("session:" ++ sid)) now sid dbt
          schema seed uid
  | none =>
    if st.sessions.length ≥ MAX_SESSIONS then (.error tooManyMsg, st)
    else gocRebuildOrCreate env st now sid dbt schema seed uid

/-- The post-ownership phase of `execute`: reconnect if needed, then invoke
the executor.  The boolean records whether the executor ran the query. -/
def sessionRunQuery (s : Session) (q : String) : QueryResult × Bool :=
  if ¬ s.connected ∧ ¬ s.reconnectOk then
    ({ success := false,
       error_message := "Connection lost and reconnect failed: " ++ s.reconnectErr },
      false)
  else (s.exec q, true)

/-- `SessionManager.execute`: lookup, ownership check, `last_used_at`
update, then the per-session execution phase. -/
def mgrExecute (st : MgrState) (now : Int) (sid query : String)
    (uid : Option PyVal) : QueryResult × Bool × MgrState :=
  match lookupSession st sid with
  | none => ({ success := false, error_message := "SESSION_EXPIRED" }, false, st)
  | some s =>
    match s.user_id with
    | some owner =>
      (match uid with
        | none => ({ success := false, error_message := notOwnerMsg }, false, st)
        | some u =>
          if owner ≠ u then
            ({ success := false, error_message := notOwnerMsg }, false, st)
          else
            let s1 := { s with last_used_at := now }
            let r := sessionRunQuery s1 query
            (r.1, r.2, updateSession st sid s1))
    | none =>
      let s1 := { s with last_used_at := now }
      let r := sessionRunQuery s1 query
      (r.1, r.2, updateSession st sid s1)

/-- `SessionManager.destroy`: pop the entry and delete its metadata. -/
def mgrDestroy (st : MgrState) (sid : String) : MgrState :=
  match lookupSession st sid with
  | none => st
  | some _ => redisDel (removeSession st sid) ("session:" ++ sid)

/-- `_cleanup_expired`: one pass of the 60-second cleanup ticker — remove
every session idle longer than `SESSION_TTL` and delete its metadata. -/
def cleanupExpired (st : MgrState) (now : Int) : MgrState :=
  let expiredKeys :=
    (st.sessions.filter (fun p => now - p.2.last_used_at > SESSION_TTL)).map
      (fun p => "session:" ++ p.1)
  { sessions := st.sessions.filter (fun p => ¬ now - p.2.last_used_at > SESSION_TTL),
    redisStore := st.redisStore.filter (fun p => ¬ expiredKeys.contains p.1) }

/-! ### Pool facade (`backend/sandbox/pool.py`) -/

/-- The abstracted outcomes of the fallible stages of the stateless
`execute_query` body: acquiring an executor, `reset`, schema init, seed
load, and the query itself.  `Except.error` is a raised exception. -/
structure StatelessEnv where
  acquire : Except String Unit
  resetE : Except String Unit
  schemaE : Except String QueryResult
  seedE : Except String QueryResult
  queryE : Except String QueryResult

/-- The seed-then-query tail of the stateless try block. -/
def poolAfterSchema (env : StatelessEnv) (seed : String) : Except String QueryResult :=
  if seed ≠ "" then
    match env.seedE with
    | .error e => .error e
    | .ok r => if ¬ r.success then .ok r else env.queryE
  else env.queryE

/-- The whole try block of `SandboxPool.execute_query`: any stage may raise
and a non-success schema or seed result is returned as-is. -/
def poolTryBody (env : StatelessEnv) (schema seed : String) : Except String QueryResult :=
  match env.acquire with
  | .error e => .error e
  | .ok _ =>
    match env.resetE with
    | .error e => .error e
    | .ok _ =>
      if schema ≠ "" then
        match env.schemaE with
        | .error e => .error e
        | .ok r => if ¬ r.success then .ok r else poolAfterSchema env seed
      else poolAfterSchema env seed

/-- `SandboxPool.execute_query` with its exception boundary explicit: a
validator rejection is answered directly, and the `except Exception`
handler converts any raised stage into a failure result, so the function
as a whole never propagates an error. -/
def poolExecuteQueryE (env : StatelessEnv) (dbt query schema seed : String) :
    Except String QueryResult :=
  match validateFor dbt query with
  | some m => .ok { success := false, error_message := m }
  | none =>
    match poolTryBody env schema seed with
    | .ok r => .ok r
    | .error e => .ok { success := false, error_message := e }

/-- `SandboxPool.execute_query` as the total function the caller sees. -/
def poolExecuteQuery (env : StatelessEnv) (dbt query schema seed : String) :
    QueryResult :=
  match poolExecuteQueryE env dbt query schema seed with
  | .ok r => r
  | .error e => { success := false, error_message := e }

/-- `SandboxPool.execute_query_in_session`: validate, then `get_or_create`
followed by `execute`, with manager raises caught and rendered as failure
results.  The boolean records whether a session executor was invoked. -/
def poolExecuteQueryInSession (env : CreateEnv) (st : MgrState) (now : Int)
    (sid dbt query schema seed : String) (uid : Option PyVal) :
    QueryResult × Bool × MgrState :=
  match validateFor dbt query with
  | some m => ({ success := false, error_message := m }, false, st)
  | none =>
    match getOrCreate env st now sid dbt schema seed uid with
    | (.error e, st1) => ({ success := false, error_message := e }, false, st1)
    | (.ok _, st1) => mgrExecute st1 now sid query uid

/-- `SandboxPool.execute_query_in_session` with its exception boundary
explicit (the try block's raises surface as `Except.error` before the
handler turns them into results). -/
def poolExecuteQueryInSessionE (env : CreateEnv) (st : MgrState) (now : Int)
    (sid dbt query schema seed : String) (uid : Option PyVal) :
    Except String (QueryResult × MgrState) :=
  match validateFor dbt query with
  | some m => .ok ({ success := false, error_message := m }, st)
  | none =>
    match getOrCreate env st now sid dbt schema seed uid with
    | (.error e, st1) => .ok ({ success := false, error_message := e }, st1)
    | (.ok _, st1) =>
      let r := mgrExecute st1 now sid query uid
      .ok (r.1, r.2.2)

/-! ### Shared association-list lemmas -/

/-- A key absent from the key list is not found by `lookup`. -/
theorem lookupNoneOfKeyNotMem {α : Type} :
    ∀ (l : List (String × α)) (sid : String),
      sid ∉ l.map Prod.fst → l.lookup sid = none := by
  intro l
  induction l with
  | nil => intro sid _; rfl
  | cons h t ih =>
    intro sid hmem
    simp only [List.map_cons, List.mem_cons] at hmem
    push_neg at hmem
    have hne : (sid == h.1) = false := by
      simp [hmem.1]
    simp [List.lookup, hne, ih sid hmem.2]

/-- Filtering on a predicate that excludes a key makes it unfindable. -/
theorem lookupFilterKeyNe {α : Type} (l : List (String × α)) (sid : String) :
    (l.filter (fun p => p.1 ≠ sid)).lookup sid = none := by
  apply lookupNoneOfKeyNotMem
  intro hmem
  obtain ⟨p, hp, hps⟩ := List.mem_map.mp hmem
  have := List.of_mem_filter hp
  simp at this
  exact this hps

/-- `lookup` on a cons whose key differs skips the head. -/
theorem lookupConsNe {α : Type} (h : String × α) (t : List (String × α)) (sid : String)
    (hne : (sid == h.1) = false) : (h :: t).lookup sid = t.lookup sid := by
  cases h with
  | mk k v => simp only [List.lookup, hne]

/-- `lookup` on a cons whose key matches returns the head value. -/
theorem lookupConsEq {α : Type} (h : String × α) (t : List (String × α)) (sid : String)
    (heq : (sid == h.1) = true) : (h :: t).lookup sid = some h.2 := by
  cases h with
  | mk k v => simp only [List.lookup, heq]

/-- With no duplicate keys, filtering out the found entry removes the key. -/
theorem lookupFilterNone {α : Type} (keep : String × α → Bool) :
    ∀ (l : List (String × α)) (sid : String) (s : α),
      (l.map Prod.fst).Nodup → l.lookup sid = some s → keep (sid, s) = false →
      (l.filter keep).lookup sid = none := by
  intro l
  induction l with
  | nil => intro sid s _ hl; cases hl
  | cons h t ih =>
    intro sid s hnodup hl hk
    simp only [List.map_cons, List.nodup_cons] at hnodup
    by_cases hb : (sid == h.1) = true
    · have hsk : sid = h.1 := eq_of_beq hb
      have hv : h.2 = s := by
        rw [lookupConsEq h t sid hb] at hl
        exact Option.some.inj hl
      have hkh : keep h = false := by
        have hh : h = (sid, s) := by
          cases h
          simp only at hsk hv
          simp [hsk, hv]
        rw [hh]; exact hk
      rw [List.filter_cons, hkh]
      simp only [Bool.false_eq_true, if_false]
      apply lookupNoneOfKeyNotMem
      intro hmem
      apply hnodup.1
      obtain ⟨p, hp, hps⟩ := List.mem_map.mp hmem
      exact List.mem_map.mpr ⟨p, List.mem_of_mem_filter hp, hps.trans hsk⟩
    · have hb' : (sid == h.1) = false := Bool.eq_false_iff.mpr hb
      have hl' : t.lookup sid = some s := by
        rw [lookupConsNe h t sid hb'] at hl
        exact hl
      rw [List.filter_cons]
      by_cases hkh : keep h = true
      · rw [hkh]
        simp only [if_true]
        rw [lookupConsNe h (t.filter keep) sid hb']
        exact ih sid s hnodup.2 hl' hk
      · have hkf : keep h = false := Bool.eq_false_iff.mpr hkh
        rw [hkf]
        simp only [Bool.false_eq_true, if_false]
        exact ih sid s hnodup.2 hl' hk

/-- With no duplicate keys, filtering that keeps the found entry preserves
the lookup result. -/
theorem lookupFilterSome {α : Type} (keep : String × α → Bool) :
    ∀ (l : List (String × α)) (sid : String) (s : α),
      (l.map Prod.fst).Nodup → l.lookup sid = some s → keep (sid, s) = true →
      (l.filter keep).lookup sid = some s := by
  intro l
  induction l with
  | nil => intro sid s _ hl; cases hl
  | cons h t ih =>
    intro sid s hnodup hl hk
    simp only [List.map_cons, List.nodup_cons] at hnodup
    by_cases hb : (sid == h.1) = true
    · have hv : h.2 = s := by
        rw [lookupConsEq h t sid hb] at hl
        exact Option.some.inj hl
      have hsk : sid = h.1 := eq_of_beq hb
      have hkh : keep h = true := by
        have hh : h = (sid, s) := by
          cases h
          simp only at hsk hv
          simp [hsk, hv]
        rw [hh]; exact hk
      rw [List.filter_cons, hkh]
      simp only [if_true]
      rw [lookupConsEq h (t.filter keep) sid hb, hv]
    · have hb' : (sid == h.1) = false := Bool.eq_false_iff.mpr hb
      have hl' : t.lookup sid = some s := by
        rw [lookupConsNe h t sid hb'] at hl
        exact hl
      rw [List.filter_cons]
      by_cases hkh : keep h = true
      · rw [hkh]
        simp only [if_true]
        rw [lookupConsNe h (t.filter keep) sid hb']
        exact ih sid s hnodup.2 hl' hk
      · have hkf : keep h = false := Bool.eq_false_iff.mpr hkh
        rw [hkf]
        simp only [Bool.false_eq_true, if_false]
        exact ih sid s hnodup.2 hl' hk

/-! ### Claim C4 — result truncation -/

/-- C4 (amended): the PostgreSQL executor caps result rows at
`MAX_RESULT_ROWS` and sets `truncated` exactly when the fetch exceeded the
cap (at or under the cap all rows are returned with `truncated = false`);
the SQLite executor returns every fetched row with `truncated = false`. -/
theorem C4_theorem :
    ∀ (cols : List String) (fetched : List (List PyVal)) (rc : Int) (e : Nat),
      ((pgExecuteQuery (some cols) fetched rc e).rows.length ≤ MAX_RESULT_ROWS
        ∧ ((pgExecuteQuery (some cols) fetched rc e).truncated = true
            ↔ MAX_RESULT_ROWS < fetched.length)
        ∧ (fetched.length ≤ MAX_RESULT_ROWS →
            (pgExecuteQuery (some cols) fetched rc e).rows = fetched
              ∧ (pgExecuteQuery (some cols) fetched rc e).truncated = false)
        ∧ (MAX_RESULT_ROWS < fetched.length →
            (pgExecuteQuery (some cols) fetched rc e).rows = fetched.take MAX_RESULT_ROWS))
      ∧ ((sqliteExecuteQuery (some cols) fetched rc e).rows = fetched
        ∧ (sqliteExecuteQuery (some cols) fetched rc e).truncated = false) := by
  intro cols fetched rc e
  refine ⟨⟨?_, ?_, ?_, ?_⟩, rfl, rfl⟩
  · by_cases h : MAX_RESULT_ROWS < fetched.length
    · simp [pgExecuteQuery, h, List.length_take]
    · simp [pgExecuteQuery, h]
      omega
  · by_cases h : MAX_RESULT_ROWS < fetched.length
    · simp [pgExecuteQuery, h]
    · simp [pgExecuteQuery, h]
  · intro h
    have h' : ¬ MAX_RESULT_ROWS < fetched.length := by omega
    simp [pgExecuteQuery, h']
  · intro h
    simp [pgExecuteQuery, h]

/-- C4 counterexample: the claim says every backend executor truncates at
`MAX_RESULT_ROWS`, but the SQLite executor returns a 1001-row fetch intact
with `truncated = false`. -/
theorem C4_counterexample :
    (sqliteExecuteQuery (some ["x"]) (List.replicate (MAX_RESULT_ROWS + 1) [PyVal.pint 0]) 0 0).rows.length
      = MAX_RESULT_ROWS + 1
    ∧ (sqliteExecuteQuery (some ["x"]) (List.replicate (MAX_RESULT_ROWS + 1) [PyVal.pint 0]) 0 0).truncated
      = false
    ∧ MAX_RESULT_ROWS + 1 > MAX_RESULT_ROWS := by
  refine ⟨?_, rfl, by omega⟩
  exact List.length_replicate _ _

/-- C4 witness: the truncation clause of the theorem applied to a concrete
1001-row fetch. -/
theorem C4_witness :
    MAX_RESULT_ROWS < (List.replicate (MAX_RESULT_ROWS + 1) [PyVal.pint 0]).length
    ∧ (pgExecuteQuery (some ["x"]) (List.replicate (MAX_RESULT_ROWS + 1) [PyVal.pint 0]) 0 0).rows
      = (List.replicate (MAX_RESULT_ROWS + 1) [PyVal.pint 0]).take MAX_RESULT_ROWS := by
  have hlt : MAX_RESULT_ROWS < (List.replicate (MAX_RESULT_ROWS + 1) [PyVal.pint 0]).length := by
    rw [List.length_replicate]
    exact Nat.lt_succ_self _
  exact ⟨hlt,
    ( C4_theorem ["x"] (List.replicate (MAX_RESULT_ROWS + 1) [PyVal.pint 0]) 0 0).1.2.2.2 hlt⟩

/-! ### Claim C8 — unordered result comparison -/

/-- C8 (amended): with matching column sets and equal row counts and
`order_matters = false`, the result-match score is
`100 × |set(student) ∩ set(expected)| / expected_rows` — a set (distinct
rows) intersection, not a multiset one — and the check passes iff the
number of distinct matched rows equals the expected row count, so an
expected result containing duplicate rows can never pass, not even against
an identical student result. -/
theorem C8_theorem (student expected : ResTab) (pm : Bool)
    (hcols : sameSet (student.columns.map strUpper) (expected.columns.map strUpper) = true)
    (hlen : (normStudentRows student expected).length = (normExpectedRows expected).length)
    (hne : (normExpectedRows expected).length ≠ 0) :
    (checkResultMatch student expected false pm).score
      = (pySetInterCard (normStudentRows student expected) (normExpectedRows expected) : Q)
        / ((normExpectedRows expected).length : Q) * 100
    ∧ ((checkResultMatch student expected false pm).passed = true
      ↔ pySetInterCard (normStudentRows student expected) (normExpectedRows expected)
          = (normExpectedRows expected).length) := by
  unfold checkResultMatch
  simp only [hcols, Bool.true_eq_false, not_true_eq_false, if_false, hlen, rowMatches,
    if_neg hne, ne_eq, not_true_eq_false, Bool.false_eq_true, ite_false, ite_true,
    not_false_eq_true, decide_eq_true_eq]
  exact ⟨trivial, trivial⟩

def dupTab : ResTab :=
  { success := true, columns := ["id"], rows := [[PyVal.pint 1], [PyVal.pint 1]] }

/-- C8 counterexample: a student result identical to an expected result that
contains a duplicate row scores 50, not 100, and fails the check. -/
theorem C8_counterexample :
    (checkResultMatch dupTab dupTab false false).passed = false
    ∧ (checkResultMatch dupTab dupTab false false).score = 50
    ∧ (50 : Q) ≠ 100 := by
  decide

/-- C8 witness: the amended theorem applied to the duplicate-row tables. -/
theorem C8_witness :
    (sameSet (dupTab.columns.map strUpper) (dupTab.columns.map strUpper) = true)
    ∧ (checkResultMatch dupTab dupTab false false).score
      = (pySetInterCard (normStudentRows dupTab dupTab) (normExpectedRows dupTab) : Q)
        / ((normExpectedRows dupTab).length : Q) * 100 :=
  ⟨by decide, ( C8_theorem dupTab dupTab false (by decide) (by decide) (by decide)).1⟩

/-! ### Claim C9 — forbidden-keyword grading scenario -/

def c9query : String := "SELECT * FROM t JOIN u ON t.id=u.id"

def c9tab : ResTab := { success := true, columns := ["id"], rows := [[PyVal.pint 1]] }

/-- C9 (amended): on the scenario inputs the word-boundary search cannot
find the non-word keyword `*` between spaces, so the forbidden check
passes, every check passes, and grade returns score 100 with
`is_correct = true` (not 80 / false). -/
theorem C9_theorem :
    kwFound c9query "*" = false
    ∧ checkForbidden c9query ["*"] = { passed := true, score := 100, found := [] }
    ∧ gradeSubmission c9tab (some c9tab) ["JOIN"] ["*"] false false 100 c9query
      = { score := 100, max_score := 100, is_correct := true,
          checks := [("Forbidden keywords", true), ("Required keywords", true),
            ("Result match", true)] } := by
  decide

/-- C9 counterexample: grade on the claim's exact inputs returns score 100
and `is_correct = true`, refuting the claimed 80 / false outcome. -/
theorem C9_counterexample :
    (gradeSubmission c9tab (some c9tab) ["JOIN"] ["*"] false false 100 c9query).score = 100
    ∧ (gradeSubmission c9tab (some c9tab) ["JOIN"] ["*"] false false 100 c9query).is_correct = true
    ∧ ¬ ((gradeSubmission c9tab (some c9tab) ["JOIN"] ["*"] false false 100 c9query).score = 80
        ∧ (gradeSubmission c9tab (some c9tab) ["JOIN"] ["*"] false false 100 c9query).is_correct = false) := by
  decide

/-! ### Claim C6 — Redis key prefixing -/

/-- With a nonempty prefix and nonempty args the guard falls through to the
command dispatch. -/
theorem pfxArgsCons (kp : String) (hkp : kp ≠ "") (command a : String) (as : List String) :
    pfxArgs kp command (a :: as) = pfxDispatch kp (strUpper command) (a :: as) := by
  unfold pfxArgs
  rw [if_neg]
  simp [hkp]

/-- Empty argument lists are always returned untouched. -/
theorem pfxArgsNil (kp command : String) : pfxArgs kp command [] = [] := by
  unfold pfxArgs
  rw [if_pos (Or.inr rfl)]

/-- Dispatch on a no-key command. -/
theorem pfxDispatchNoKey (kp cmd : String) (args : List String)
    (h : cmd ∈ noKeyCmds) : pfxDispatch kp cmd args = args := by
  simp [pfxDispatch, h]

/-- Dispatch on an all-keys command. -/
theorem pfxDispatchAllKeys (kp cmd : String) (args : List String)
    (h1 : cmd ∉ noKeyCmds) (h2 : cmd ≠ "KEYS")
    (h3 : cmd ∈ allKeysCmds) :
    pfxDispatch kp cmd args = args.map (pfxKey kp) := by
  simp [pfxDispatch, h1, h2, h3]

/-- Dispatch on a key/value-pair command. -/
theorem pfxDispatchKvPair (kp cmd : String) (args : List String)
    (h1 : cmd ∉ noKeyCmds) (h2 : cmd ≠ "KEYS")
    (h3 : cmd ∉ allKeysCmds) (h4 : cmd ∈ kvPairCmds) :
    pfxDispatch kp cmd args = args.mapIdx (fun i a => if i % 2 = 0 then pfxKey kp a else a) := by
  simp [pfxDispatch, h1, h2, h3, h4]

/-- Dispatch on a two-key command with at least two arguments. -/
theorem pfxDispatchTwoKey (kp cmd : String) (a b : String) (rest : List String)
    (h1 : cmd ∉ noKeyCmds) (h2 : cmd ≠ "KEYS")
    (h3 : cmd ∉ allKeysCmds) (h4 : cmd ∉ kvPairCmds)
    (h5 : cmd ∈ twoKeyCmds) :
    pfxDispatch kp cmd (a :: b :: rest) = pfxKey kp a :: pfxKey kp b :: rest := by
  simp [pfxDispatch, h1, h2, h3, h4, h5]

/-- Dispatch on a command in no special class: first argument is the key. -/
theorem pfxDispatchDefault (kp cmd : String) (a : String) (rest : List String)
    (h1 : cmd ∉ noKeyCmds) (h2 : cmd ≠ "KEYS")
    (h3 : cmd ∉ allKeysCmds) (h4 : cmd ∉ kvPairCmds)
    (h5 : cmd ∉ twoKeyCmds) :
    pfxDispatch kp cmd (a :: rest) = pfxKey kp a :: rest := by
  simp [pfxDispatch, h1, h2, h3, h4, h5]

/-- C6: with a nonempty key prefix `P`, no-key commands are untouched; the
`KEYS` glob pattern becomes `P:<pattern>`; all-keys commands have every
argument prefixed; `MSET`/`MSETNX` have exactly the even-indexed arguments
prefixed; two-key commands have exactly their first two arguments prefixed;
every other command has exactly its first argument prefixed; and every
string in a `KEYS` reply that starts with `P:` is returned with that prefix
stripped. -/
theorem C6_theorem (kp : String) (hkp : kp ≠ "") :
    (∀ cmd args, strUpper cmd ∈ noKeyCmds → pfxArgs kp cmd args = args)
    ∧ (∀ a rest, pfxArgs kp "KEYS" (a :: rest) = (kp ++ ":" ++ a) :: rest)
    ∧ (∀ cmd, cmd ∈ allKeysCmds → ∀ args,
        pfxArgs kp cmd args = args.map (fun k => kp ++ ":" ++ k))
    ∧ (∀ cmd, cmd ∈ kvPairCmds → ∀ args,
        pfxArgs kp cmd args = args.mapIdx (fun i k => if i % 2 = 0 then kp ++ ":" ++ k else k))
    ∧ (∀ cmd, cmd ∈ twoKeyCmds → ∀ a b rest,
        pfxArgs kp cmd (a :: b :: rest) = (kp ++ ":" ++ a) :: (kp ++ ":" ++ b) :: rest)
    ∧ (∀ cmd a rest, strUpper cmd ∉ noKeyCmds → strUpper cmd ≠ "KEYS" →
        strUpper cmd ∉ allKeysCmds → strUpper cmd ∉ kvPairCmds →
        strUpper cmd ∉ twoKeyCmds →
        pfxArgs kp cmd (a :: rest) = (kp ++ ":" ++ a) :: rest)
    ∧ (∀ l, stripKeyList kp l
        = l.map (fun k =>
            if listStarts (kp ++ ":").data k.data then
              (⟨k.data.drop (kp ++ ":").data.length⟩ : String)
            else k))
    ∧ (∀ backend cmd args l, strUpper cmd = "KEYS" →
        backend cmd (pfxArgs kp cmd args) = RVal.rlist l →
        execCommand kp backend cmd args = RVal.rlist (stripKeyList kp l)) := by
  refine ⟨?_, ?_, ?_, ?_, ?_, ?_, ?_, ?_⟩
  · intro cmd args h
    cases args with
    | nil => exact pfxArgsNil kp cmd
    | cons a as =>
      rw [pfxArgsCons kp hkp]
      exact pfxDispatchNoKey _ _ _ h
  · intro a rest
    rw [pfxArgsCons kp hkp, show strUpper "KEYS" = "KEYS" from rfl]
    simp [pfxDispatch, show "KEYS" ∉ noKeyCmds from by decide]
  · intro cmd hmem
    simp only [allKeysCmds, List.mem_cons, List.not_mem_nil, or_false] at hmem
    rcases hmem with rfl | rfl | rfl | rfl | rfl | rfl | rfl | rfl | rfl <;>
      (intro args
       cases args with
       | nil => rw [pfxArgsNil]; rfl
       | cons a as =>
         rw [pfxArgsCons kp hkp,
           pfxDispatchAllKeys _ _ _ (by decide) (by decide) (by decide)]
         simp [pfxKey, hkp])
  · intro cmd hmem
    simp only [kvPairCmds, List.mem_cons, List.not_mem_nil, or_false] at hmem
    rcases hmem with rfl | rfl <;>
      (intro args
       cases args with
       | nil => rw [pfxArgsNil]; rfl
       | cons a as =>
         rw [pfxArgsCons kp hkp,
           pfxDispatchKvPair _ _ _ (by decide) (by decide) (by decide) (by decide)]
         simp [pfxKey, hkp])
  · intro cmd hmem
    simp only [twoKeyCmds, List.mem_cons, List.not_mem_nil, or_false] at hmem
    rcases hmem with rfl | rfl | rfl | rfl | rfl | rfl | rfl | rfl <;>
      (intro a b rest
       rw [pfxArgsCons kp hkp,
         pfxDispatchTwoKey _ _ _ _ _ (by decide) (by decide) (by decide) (by decide)
           (by decide)]
       simp [pfxKey, hkp])
  · intro cmd a rest h1 h2 h3 h4 h5
    rw [pfxArgsCons kp hkp, pfxDispatchDefault _ _ _ _ h1 h2 h3 h4 h5]
    simp [pfxKey, hkp]
  · intro l
    unfold stripKeyList
    rw [if_neg hkp]
  · intro backend cmd args l hU hB
    simp only [execCommand]
    rw [hB, if_pos ⟨hkp, hU⟩]

def c6backend : String → List String → RVal :=
  fun _ _ => RVal.rlist ["s_abc:k", "plain"]

/-- C6 witness: the theorem applied at the prefix `s_abc` on concrete
commands, including the strip of a `KEYS` reply. -/
theorem C6_witness :
    ("s_abc" : String) ≠ ""
    ∧ pfxArgs "s_abc" "KEYS" ["*"] = ["s_abc:*"]
    ∧ pfxArgs "s_abc" "MSET" ["k1", "v1", "k2"] = ["s_abc:k1", "v1", "s_abc:k2"]
    ∧ execCommand "s_abc" c6backend "KEYS" ["*"] = RVal.rlist ["k", "plain"] :=
  ⟨by decide,
   ( C6_theorem "s_abc" (by decide)).2.1 "*" [],
   ( C6_theorem "s_abc" (by decide)).2.2.2.1 "MSET" (by decide) ["k1", "v1", "k2"],
   ( C6_theorem "s_abc" (by decide)).2.2.2.2.2.2.2 c6backend "KEYS" ["*"]
     ["s_abc:k", "plain"] (by decide) rfl⟩

/-! ### Concrete fixtures for the session-manager claims -/

def sessExec : String → QueryResult :=
  fun _ => { success := true, columns := ["result"], rows := [[PyVal.pint 1]], row_count := 1 }

def envA : CreateEnv := { mkExec := fun _ _ _ => { success := true }, freshHex := "abcdefabcdef" }

def sessU : Session :=
  { session_id := "sidU", database_type := "sqlite", schema_sql := "", seed_sql := "",
    exec := sessExec, created_at := 0, last_used_at := 0 }

def stU : MgrState := { sessions := [("sidU", sessU)], redisStore := [] }

/-! ### Claim C10 — unowned sessions skip the ownership check -/

/-- C10: when a session's recorded owner is `None`, the ownership check is
skipped: `execute` goes straight to the execution phase and `get_or_create`
returns the session for every caller (including `None`), and `destroy`
removes it for any caller. -/
theorem C10_theorem (st : MgrState) (now : Int) (sid : String) (s : Session)
    (hl : lookupSession st sid = some s) (hown : s.user_id = none) :
    (∀ query uid,
      mgrExecute st now sid query uid
        = ((sessionRunQuery { s with last_used_at := now } query).1,
           (sessionRunQuery { s with last_used_at := now } query).2,
           updateSession st sid { s with last_used_at := now }))
    ∧ (∀ env schema seed uid,
        getOrCreate env st now sid s.database_type schema seed uid
          = (.ok { s with last_used_at := now },
             updateSession st sid { s with last_used_at := now }))
    ∧ lookupSession (mgrDestroy st sid) sid = none := by
  refine ⟨?_, ?_, ?_⟩
  · intro query uid
    simp [mgrExecute, hl, hown]
  · intro env schema seed uid
    simp [getOrCreate, hl, hown]
  · simp only [mgrDestroy, hl]
    exact lookupFilterKeyNe st.sessions sid

/-- C10 witness: the theorem at a concrete unowned session, with a caller
whose user id differs from everyone. -/
theorem C10_witness :
    lookupSession stU "sidU" = some sessU
    ∧ mgrExecute stU 5 "sidU" "q" (some (PyVal.pint 99))
      = ((sessionRunQuery { sessU with last_used_at := 5 } "q").1,
         (sessionRunQuery { sessU with last_used_at := 5 } "q").2,
         updateSession stU "sidU" { sessU with last_used_at := 5 })
    ∧ lookupSession (mgrDestroy stU "sidU") "sidU" = none :=
  ⟨rfl,
   ( C10_theorem stU 5 "sidU" sessU rfl rfl).1 "q" (some (PyVal.pint 99)),
   ( C10_theorem stU 5 "sidU" sessU rfl rfl).2.2⟩

/-! ### Claim C2 — ownership enforcement -/

def sessO : Session :=
  { session_id := "sidO", database_type := "sqlite", schema_sql := "", seed_sql := "",
    exec := sessExec, created_at := 0, last_used_at := 0, user_id := some (PyVal.pint 1) }

def stO : MgrState := { sessions := [("sidO", sessO)], redisStore := [] }

/-- C2: for a live session owned by `owner`, a caller with a different (or
absent) user id gets the not-owner outcome from `execute` (a failure result
with the ownership message and no executor invocation, state unchanged),
`get_or_create` raises it, and the pool surfaces it as a `success = false`
result with no executor touched. -/
theorem C2_theorem (st : MgrState) (now : Int) (sid : String) (s : Session) (owner : PyVal)
    (uid : Option PyVal)
    (hl : lookupSession st sid = some s) (hown : s.user_id = some owner)
    (huid : uid = none ∨ uid ≠ some owner) :
    (∀ query, mgrExecute st now sid query uid
        = ({ success := false, error_message := notOwnerMsg }, false, st))
    ∧ (∀ env schema seed,
        getOrCreate env st now sid s.database_type schema seed uid
          = (.error notOwnerMsg, st))
    ∧ (∀ env query schema seed, validateFor s.database_type query = none →
        poolExecuteQueryInSession env st now sid s.database_type query schema seed uid
          = ({ success := false, error_message := notOwnerMsg }, false, st)) := by
  have hcase : uid = none ∨ ∃ u, uid = some u ∧ owner ≠ u := by
    rcases huid with h | h
    · exact Or.inl h
    · cases uid with
      | none => exact Or.inl rfl
      | some u => exact Or.inr ⟨u, rfl, fun he => h (by rw [he])⟩
  have hexec : ∀ query, mgrExecute st now sid query uid
      = ({ success := false, error_message := notOwnerMsg }, false, st) := by
    intro query
    rcases hcase with h | ⟨u, hu, hne⟩
    · subst h; simp [mgrExecute, hl, hown]
    · subst hu; simp [mgrExecute, hl, hown, hne]
  have hgoc : ∀ env schema seed,
      getOrCreate env st now sid s.database_type schema seed uid
        = (.error notOwnerMsg, st) := by
    intro env schema seed
    rcases hcase with h | ⟨u, hu, hne⟩
    · subst h; simp [getOrCreate, hl, hown]
    · subst hu; simp [getOrCreate, hl, hown, hne]
  refine ⟨hexec, hgoc, ?_⟩
  intro env query schema seed hv
  simp [poolExecuteQueryInSession, hv, hgoc env schema seed]

/-- C2 witness: user 2 (and an anonymous caller) hitting user 1's session. -/
theorem C2_witness :
    lookupSession stO "sidO" = some sessO
    ∧ validateFor "sqlite" "SELECT 1" = none
    ∧ poolExecuteQueryInSession envA stO 5 "sidO" "sqlite" "SELECT 1" "" ""
        (some (PyVal.pint 2))
      = ({ success := false, error_message := notOwnerMsg }, false, stO)
    ∧ mgrExecute stO 5 "sidO" "SELECT 1" none
      = ({ success := false, error_message := notOwnerMsg }, false, stO) :=
  ⟨rfl, by decide,
   ( C2_theorem stO 5 "sidO" sessO (PyVal.pint 1) (some (PyVal.pint 2)) rfl rfl
      (Or.inr (by decide))).2.2 envA "SELECT 1" "" "" (by decide),
   ( C2_theorem stO 5 "sidO" sessO (PyVal.pint 1) none rfl rfl (Or.inl rfl)).1 "SELECT 1"⟩

/-! ### Claim C3 — rebuild stamps a string owner id and locks out the owner -/

def envX : CreateEnv :=
  { mkExec := fun _ _ _ =>
      { success := true, columns := ["result"], rows := [[PyVal.pstr "3"]], row_count := 1 },
    freshHex := "0123456789ab" }

def metaX : SessionMeta :=
  { session_id := "sidx", database_type := "mongodb", schema_sql := "",
    seed_sql := "seed", isolation_id := "s_old", created_at := 0,
    user_id := some "7" }

def stX : MgrState := { sessions := [], redisStore := [("session:sidx", metaX)] }

/-- C3 (code bug): saving metadata stringifies the owner id (user 7 is
stored as `"7"`), the rebuild stamps the session with that string, and the
original owner's next execute on the rebuilt session is rejected with the
not-owner message instead of succeeding — the executor is never invoked. -/
theorem C3_bug_theorem :
    metaOf { session_id := "sidx", database_type := "mongodb", schema_sql := "",
             seed_sql := "seed", exec := sessExec, created_at := 0, last_used_at := 0,
             isolation_id := some "s_old", user_id := some (PyVal.pint 7) }
      = metaX
    ∧ ((rebuildFromRedis envX stX 0 "sidx" "mongodb").map (fun s => s.user_id))
      = some (some (PyVal.pstr "7"))
    ∧ (poolExecuteQueryInSession envX stX 0 "sidx" "mongodb"
        "db.users.countDocuments()" "" "" (some (PyVal.pint 7))).1
      = { success := false, error_message := notOwnerMsg }
    ∧ (poolExecuteQueryInSession envX stX 0 "sidx" "mongodb"
        "db.users.countDocuments()" "" "" (some (PyVal.pint 7))).2.1 = false := by
  refine ⟨by decide, by decide, by decide, by decide⟩

/-! ### Claim C1 — expiry and observability -/

/-- C1 (amended): a session idle longer than `SESSION_TTL` is removed by
the next cleanup pass: after `_cleanup_expired` runs at time `now`, lookup
no longer finds it and `execute` answers `SESSION_EXPIRED` without touching
any executor; a session within the TTL survives the pass.  (Until that
pass runs, the session stays observable — see the counterexample.) -/
theorem C1_theorem (st : MgrState) (now now2 : Int) (sid : String) (s : Session)
    (hnodup : (st.sessions.map Prod.fst).Nodup)
    (hl : lookupSession st sid = some s) :
    ((now - s.last_used_at > SESSION_TTL) →
      lookupSession (cleanupExpired st now) sid = none
      ∧ (∀ query uid, mgrExecute (cleanupExpired st now) now2 sid query uid
          = ({ success := false, error_message := "SESSION_EXPIRED" }, false,
             cleanupExpired st now)))
    ∧ (¬ now - s.last_used_at > SESSION_TTL →
      lookupSession (cleanupExpired st now) sid = some s) := by
  constructor
  · intro hexp
    have hnone : lookupSession (cleanupExpired st now) sid = none := by
      apply lookupFilterNone _ st.sessions sid s hnodup hl
      simp only [decide_eq_false_iff_not, not_not]
      exact hexp
    exact ⟨hnone, fun query uid => by simp [mgrExecute, hnone]⟩
  · intro hok
    apply lookupFilterSome _ st.sessions sid s hnodup hl
    simp only [decide_eq_true_eq]
    exact hok

/-- C1 counterexample: before any cleanup pass, a session expired for
`now − last_used_at = 1000 > SESSION_TTL` is still fully observable:
`get_or_create` returns it and `execute` runs the query on its executor
rather than answering `SESSION_EXPIRED`. -/
theorem C1_counterexample :
    ((1000 : Int) - sessU.last_used_at > SESSION_TTL)
    ∧ (getOrCreate envA stU 1000 "sidU" "sqlite" "" "" none).1
      = .ok { sessU with last_used_at := 1000 }
    ∧ (mgrExecute stU 1000 "sidU" "q" none).1 = sessExec "q"
    ∧ (mgrExecute stU 1000 "sidU" "q" none).1.error_message ≠ "SESSION_EXPIRED" := by
  exact ⟨by decide, rfl, rfl, by decide⟩

/-- C1 witness: the amended theorem at the concrete expired session. -/
theorem C1_witness :
    ((1000 : Int) - sessU.last_used_at > SESSION_TTL)
    ∧ lookupSession (cleanupExpired stU 1000) "sidU" = none
    ∧ mgrExecute (cleanupExpired stU 1000) 1000 "sidU" "q" none
      = ({ success := false, error_message := "SESSION_EXPIRED" }, false,
         cleanupExpired stU 1000) :=
  ⟨by decide,
   (( C1_theorem stU 1000 1000 "sidU" sessU (by decide) rfl).1 (by decide)).1,
   (( C1_theorem stU 1000 1000 "sidU" sessU (by decide) rfl).1 (by decide)).2 "q" none⟩

/-! ### Claim C5 — SQL validation pipeline -/

/-- The loop over the rule table returns the first matching rule's message. -/
theorem firstRuleMatchAppend (pre : List (Rx × String)) (r : Rx) (m : String)
    (post : List (Rx × String)) (s : String)
    (hpre : ∀ p ∈ pre, Rx.search p.1 s = false) (hr : Rx.search r s = true) :
    firstRuleMatch (pre ++ (r, m) :: post) s = some m := by
  induction pre with
  | nil => simp [firstRuleMatch, hr]
  | cons p t ih =>
    obtain ⟨pr, pm⟩ := p
    have hp := hpre (pr, pm) (List.mem_cons_self _ t)
    simp only [List.cons_append, firstRuleMatch, hp, Bool.false_eq_true, if_false]
    exact ih (fun q hq => hpre q (List.mem_cons_of_mem _ hq))

def pgQuery : String := "SELECT pg_read_file(\x27/etc/passwd\x27)"

/-- C5: SQL validation strips comments, collapses whitespace, and takes the
first matching rule of the ordered table; the `pg_read_file` probe is
answered with exactly the file-read message, and on any validator rejection
the pool returns that message without consulting any executor stage (the
result is the same for every environment). -/
theorem C5_theorem :
    (∀ q pre r m post, sqlRules = pre ++ (r, m) :: post →
        (∀ p ∈ pre, Rx.search p.1 (stripSqlComments q) = false) →
        Rx.search r (stripSqlComments q) = true →
        validateSql q = some m)
    ∧ stripSqlComments "SELECT /* hi\nthere */ pg_read_file(\x27x\x27) --tail\n+1"
      = "SELECT pg_read_file(\x27x\x27) +1"
    ∧ validateSql "SELECT /* hi\nthere */ pg_read_file(\x27x\x27) --tail" = some msgFileRead
    ∧ validateSql pgQuery = some msgFileRead
    ∧ (∀ env schema seed,
        poolExecuteQuery env "postgresql" pgQuery schema seed
          = { success := false, error_message := msgFileRead })
    ∧ (∀ env dbt q schema seed m, validateFor dbt q = some m →
        poolExecuteQuery env dbt q schema seed
          = { success := false, error_message := m }) := by
  refine ⟨?_, by decide, by decide, by decide, ?_, ?_⟩
  · intro q pre r m post hsplit hpre hr
    unfold validateSql
    rw [hsplit]
    exact firstRuleMatchAppend pre r m post _ hpre hr
  · intro env schema seed
    have hv : validateFor "postgresql" pgQuery = some msgFileRead := by decide
    simp [poolExecuteQuery, poolExecuteQueryE, hv]
  · intro env dbt q schema seed m hv
    simp [poolExecuteQuery, poolExecuteQueryE, hv]

def envUnreach : StatelessEnv :=
  { acquire := .error "connection refused", resetE := .ok (),
    schemaE := .ok { success := true }, seedE := .ok { success := true },
    queryE := .ok { success := true } }

/-- C5 witness: the blocked probe through the pool with an unreachable
backend (acquiring an executor would raise) still yields the validator
message. -/
theorem C5_witness :
    validateSql pgQuery = some msgFileRead
    ∧ poolExecuteQuery envUnreach "postgresql" pgQuery "" ""
      = { success := false, error_message := msgFileRead } :=
  ⟨C5_theorem.2.2.2.1, C5_theorem.2.2.2.2.1 envUnreach "" ""⟩

/-! ### Claim C7 — the pool operations never raise -/

/-- C7: both pool operations are total: the explicit exception-boundary
versions always return `Except.ok` — a validator rejection is returned as a
failure result with the diagnostic, a raise from any stage of the try block
(executor acquisition, reset, schema, seed, query, or the session
manager) is caught and returned as a failure result carrying the
exception's message, and a successful body is passed through. -/
theorem C7_theorem :
    (∀ env dbt query schema seed, ∃ r : QueryResult,
      poolExecuteQueryE env dbt query schema seed = .ok r
      ∧ (∀ m, validateFor dbt query = some m →
          r = { success := false, error_message := m })
      ∧ (∀ e, validateFor dbt query = none → poolTryBody env schema seed = .error e →
          r = { success := false, error_message := e })
      ∧ (∀ r2, validateFor dbt query = none → poolTryBody env schema seed = .ok r2 →
          r = r2))
    ∧ (∀ env st now sid dbt query schema seed uid, ∃ r : QueryResult, ∃ st2 : MgrState,
      poolExecuteQueryInSessionE env st now sid dbt query schema seed uid = .ok (r, st2)
      ∧ (∀ m, validateFor dbt query = some m →
          r = { success := false, error_message := m })
      ∧ (∀ e st1, validateFor dbt query = none →
          getOrCreate env st now sid dbt schema seed uid = (.error e, st1) →
          r = { success := false, error_message := e })) := by
  constructor
  · intro env dbt query schema seed
    cases hv : validateFor dbt query with
    | some m =>
      refine ⟨{ success := false, error_message := m }, ?_, ?_, ?_, ?_⟩
      · simp [poolExecuteQueryE, hv]
      · intro m2 hm2; injection hm2 with h; rw [h]
      · intro e h0 _; cases h0
      · intro r2 h0 _; cases h0
    | none =>
      cases hb : poolTryBody env schema seed with
      | ok r2 =>
        refine ⟨r2, ?_, ?_, ?_, ?_⟩
        · simp [poolExecuteQueryE, hv, hb]
        · intro m hm; cases hm
        · intro e _ he; cases he
        · intro r3 _ h3; exact Except.ok.inj h3
      | error e =>
        refine ⟨{ success := false, error_message := e }, ?_, ?_, ?_, ?_⟩
        · simp [poolExecuteQueryE, hv, hb]
        · intro m hm; cases hm
        · intro e2 _ he2; injection he2 with h; rw [h]
        · intro r2 _ h2; cases h2
  · intro env st now sid dbt query schema seed uid
    cases hv : validateFor dbt query with
    | some m =>
      refine ⟨{ success := false, error_message := m }, st, ?_, ?_, ?_⟩
      · simp [poolExecuteQueryInSessionE, hv]
      · intro m2 hm2; injection hm2 with h; rw [h]
      · intro e st1 h0 _; cases h0
    | none =>
      cases hgp : getOrCreate env st now sid dbt schema seed uid with
      | mk exc st1 =>
        cases exc with
        | error e =>
          refine ⟨{ success := false, error_message := e }, st1, ?_, ?_, ?_⟩
          · simp [poolExecuteQueryInSessionE, hv, hgp]
          · intro m hm; cases hm
          · intro e2 st2 _ hg2
            injection hg2 with h1 _
            injection h1 with h3
            rw [h3]
        | ok sres =>
          refine ⟨(mgrExecute st1 now sid query uid).1,
            (mgrExecute st1 now sid query uid).2.2, ?_, ?_, ?_⟩
          · simp [poolExecuteQueryInSessionE, hv, hgp]
          · intro m hm; cases hm
          · intro e st2 _ hg2
            injection hg2 with h1 _
            exact Except.noConfusion h1

def envBoom : StatelessEnv :=
  { acquire := .error "boom", resetE := .ok (),
    schemaE := .ok { success := true }, seedE := .ok { success := true },
    queryE := .ok { success := true } }

def stEmpty : MgrState := { sessions := [], redisStore := [] }

/-- C7 witness: both operations return `ok` on concrete inputs, including
one whose executor acquisition raises. -/
theorem C7_witness :
    (∃ r : QueryResult, poolExecuteQueryE envBoom "sqlite" "SELECT 1" "" "" = .ok r)
    ∧ (∃ r : QueryResult, ∃ st2 : MgrState,
        poolExecuteQueryInSessionE envA stEmpty 0 "s1" "sqlite" "SELECT 1" "" "" none
          = .ok (r, st2)) :=
  ⟨( C7_theorem.1 envBoom "sqlite" "SELECT 1" "" "").elim (fun r h => ⟨r, h.1⟩),
   ( C7_theorem.2 envA stEmpty 0 "s1" "sqlite" "SELECT 1" "" "" none).elim
     (fun r h => h.elim (fun st2 h2 => ⟨r, st2, h2.1⟩))⟩
